import Mathlib

set_option maxHeartbeats 1000000

/-!
Shallow embedding of the NSE disclosure scraper (`src/scraper.py`).

External collaborators (HTTP transport, BeautifulSoup tree construction,
Selenium) are modelled at their interface boundary:

* a decoded JSON payload is a `Payload` (optional `data` field, optional
  `rows` field, and the payload itself viewed as an item list);
* a keyed API record is an `Item` (string-keyed, string-valued association
  list; a JSON null or missing key is `none`);
* a located HTML `<table>` is an `Option HtmlTable` (`none` when
  `soup.find` returns no table), a `<tbody>` is an `Option` list of rows,
  a row is its list of `<td>` cells, and a `Cell` carries exactly the
  pieces of a cell the parsers inspect (stripped text, first anchor with
  its optional `href` attribute, the two `data-ws-symbol-col*` attributes,
  the `span.content` text and the `p.mt-1` size text, each `none` when the
  corresponding node/attribute is absent);
* an HTTP/JSON request that raises is an `Except`/`Option` error value;
* the Selenium render loop is a `PageRun`: either the page reached a
  state where the polled row count was positive (with the page source at
  that moment), or it never did within the hard timeout (with the final
  page source).

Python truthiness (`x or y`, `if x:`) on strings and lists is modelled
explicitly: the empty string and the empty list are falsy.
-/

def NSE_BASE_URL : String := "https://www.nseindia.com"

/-- Python `str.upper()`, modelled structurally on the character list so
that it evaluates by kernel reduction. -/
def pyUpper (s : String) : String :=
  { data := s.data.map Char.toUpper }

/-- Python `str.strip()`: drop whitespace from both ends, modelled
structurally on the character list. -/
def pyStrip (s : String) : String :=
  { data := ((s.data.dropWhile Char.isWhitespace).reverse.dropWhile Char.isWhitespace).reverse }

/-- A keyed record from a decoded JSON payload (one element of the item
collection).  `fields` holds the present, non-null entries. -/
structure Item where
  fields : List (String × String)
deriving DecidableEq

/-- `item.get(key)`: the value at `key`, or `none` when absent (or JSON null). -/
def Item.get (it : Item) (k : String) : Option String :=
  (it.fields.find? (fun kv => kv.1 == k)).map (fun kv => kv.2)

/-- `_pick(item, keys, default)` from `scraper.py` lines 390-395: first
present, non-null, non-empty value among `keys`, stringified and stripped;
otherwise the default. -/
def _pick (item : Item) (keys : List String) (default : String) : String :=
  match keys with
  | [] => default
  | k :: ks =>
    match item.get k with
    | some v => if v ≠ "" then pyStrip v else _pick item ks default
    | none => _pick item ks default

/-- A decoded JSON payload.  `dataField`/`rowsField` are the payload's
`data`/`rows` members (`none` when absent or null); `selfItems` is the
payload itself read as a list of items (empty when the payload is not a
non-empty list). -/
structure Payload where
  dataField : Option (List Item)
  rowsField : Option (List Item)
  selfItems : List Item
deriving DecidableEq

/-- Second half of `payload.get("data") or payload.get("rows") or payload or []`:
the `rows`-or-self step, with Python truthiness (an empty list is falsy). -/
def selectItemsRows (p : Payload) : List Item :=
  match p.rowsField with
  | some l => if l.isEmpty then p.selfItems else l
  | none => p.selfItems

/-- `items = payload.get("data") or payload.get("rows") or payload or []`
(lines 407, 435, 465, 501), with Python truthiness. -/
def selectItems (p : Payload) : List Item :=
  match p.dataField with
  | some l => if l.isEmpty then selectItemsRows p else l
  | none => selectItemsRows p

/-- Modelled from the spec: the item collection is "the payload's `data`
field, else its `rows` field, else the payload itself, whichever is
non-null first".  Stated for comparison with `selectItems`, which is the
translation of the source. -/
def specSelectItems (p : Payload) : List Item :=
  match p.dataField with
  | some l => l
  | none =>
    match p.rowsField with
    | some l => l
    | none => p.selfItems

structure EventCalendarRow where
  symbol : String
  company : String
  purpose : String
  details : String
  date : String
deriving DecidableEq

structure BoardMeetingRow where
  symbol : String
  company : String
  purpose : String
  details_link : String
  meeting_date : String
  attachment_link : String
  broadcast_datetime : String
deriving DecidableEq

structure CorporateActionRow where
  symbol : String
  company : String
  series : String
  purpose : String
  face_value : String
  ex_date : String
  record_date : String
  book_closure_start : String
  book_closure_end : String
deriving DecidableEq

structure AnnouncementRow where
  symbol : String
  company : String
  subject : String
  details : String
  attachment_link : String
  attachment_size : String
  xbrl_link : String
  broadcast_datetime : String
deriving DecidableEq

/-- Item-to-row mapping of `_fetch_event_calendar_api` (lines 467-480). -/
def mkEventCalendarRow (symbol : String) (item : Item) : EventCalendarRow :=
  { symbol := _pick item ["symbol", "SYMBOL"] symbol
    company := _pick item ["company", "companyName", "sm_name"] ""
    purpose := _pick item ["purpose", "subject", "event"] ""
    details := _pick item ["details", "description", "bmdesc", "eventDescription"] ""
    date := _pick item ["date", "eventDate", "bm_date"] "" }

/-- Item-to-row mapping of `_fetch_board_meetings_api` (lines 437-452). -/
def mkBoardMeetingRow (symbol : String) (item : Item) : BoardMeetingRow :=
  { symbol := _pick item ["symbol", "SYMBOL"] symbol
    company := _pick item ["sm_name", "company", "companyName"] ""
    purpose := _pick item ["bm_purpose", "purpose", "subject"] ""
    details_link := _pick item ["detailsUrl", "details_link", "bm_details"] ""
    meeting_date := _pick item ["bm_date", "meetingDate", "meeting_date"] ""
    attachment_link := _pick item ["attachment", "attachmentUrl", "pdfUrl", "xmlUrl"] ""
    broadcast_datetime := _pick item ["bm_timestamp", "broadcastDateTime", "broadcast_time"] "" }

/-- Item-to-row mapping of `_fetch_corporate_actions_api` (lines 409-422). -/
def mkCorporateActionRow (symbol : String) (item : Item) : CorporateActionRow :=
  { symbol := _pick item ["symbol", "SYMBOL"] symbol
    company := _pick item ["company", "comp", "companyName"] ""
    series := _pick item ["series"] ""
    purpose := _pick item ["subject", "purpose"] ""
    face_value := _pick item ["faceVal", "face_value"] ""
    ex_date := _pick item ["exDate", "ex_date"] ""
    record_date := _pick item ["recDate", "recordDate", "rec_date"] ""
    book_closure_start := _pick item ["bcStartDate", "bc_start_date"] ""
    book_closure_end := _pick item ["bcEndDate", "bc_end_date"] "" }

/-- Item-to-row mapping of `_fetch_announcements_api` (lines 507-519). -/
def mkAnnouncementRow (symbol : String) (item : Item) : AnnouncementRow :=
  { symbol := _pick item ["symbol", "SYMBOL"] symbol
    company := _pick item ["sm_name", "company", "companyName"] ""
    subject := _pick item ["desc", "subject", "purpose"] ""
    details := _pick item ["attchmntText", "details", "description"] ""
    attachment_link := _pick item ["attachment", "attachmentUrl", "pdfUrl"] ""
    attachment_size := _pick item ["attachmentSize", "size"] ""
    xbrl_link := _pick item ["xbrlUrl", "xbrl_link", "xmlUrl"] ""
    broadcast_datetime := _pick item ["an_dt", "broadcastDateTime", "broadcast_time"] "" }

/-- `_fetch_event_calendar_api` (lines 456-481), given the decoded payload
of its successful GET.  A network/JSON failure is modelled at the caller. -/
def _fetch_event_calendar_api (symbol : String) (payload : Payload) : List EventCalendarRow :=
  (selectItems payload).map (mkEventCalendarRow symbol)

/-- `_fetch_board_meetings_api` (lines 426-453). -/
def _fetch_board_meetings_api (symbol : String) (payload : Payload) : List BoardMeetingRow :=
  (selectItems payload).map (mkBoardMeetingRow symbol)

/-- `_fetch_corporate_actions_api` (lines 398-423). -/
def _fetch_corporate_actions_api (symbol : String) (payload : Payload) : List CorporateActionRow :=
  (selectItems payload).map (mkCorporateActionRow symbol)

/-- What one announcements type-label probe yields: `none` from `responses`
models the request/decoding raising (caught and skipped at line 523),
`some p` a decoded payload, whose item collection is then selected. -/
def annYield (responses : String → Option Payload) (t : String) : List Item :=
  match responses t with
  | none => []
  | some p => selectItems p

/-- The fixed probe order of `_fetch_announcements_api` (line 491). -/
def announcementTypeLabels : List String :=
  ["Announcement", "Corporate Announcement", "Announcements"]

/-- The probe loop of `_fetch_announcements_api` (lines 491-529): try each
type label; on the first whose payload yields items, map and return the
rows; otherwise keep trying, and return `[]` when the labels run out. -/
def fetchAnnouncementsLoop (symbol : String) (responses : String → Option Payload) :
    List String → List AnnouncementRow
  | [] => []
  | t :: ts =>
    if (annYield responses t).isEmpty then fetchAnnouncementsLoop symbol responses ts
    else
      if ((annYield responses t).map (mkAnnouncementRow symbol)).isEmpty then
        fetchAnnouncementsLoop symbol responses ts
      else (annYield responses t).map (mkAnnouncementRow symbol)

/-- `_fetch_announcements_api` (lines 484-529). -/
def _fetch_announcements_api (symbol : String) (responses : String → Option Payload) :
    List AnnouncementRow :=
  fetchAnnouncementsLoop symbol responses announcementTypeLabels

/-- An `<a>` element: its stripped text and its `href` attribute
(`none` when the anchor has no `href` attribute). -/
structure Anchor where
  text : String
  href : Option String
deriving DecidableEq

/-- One `<td>` as the parsers inspect it: `text` is `get_text(strip=True)`,
`anchor` the first `<a>` descendant, `dataColPrev`/`dataCol` the
`data-ws-symbol-col-prev`/`data-ws-symbol-col` attributes, `contentSpan`
the text of the first `span.content`, `sizeP` the text of the first
`p.mt-1`. -/
structure Cell where
  text : String
  anchor : Option Anchor
  dataColPrev : Option String
  dataCol : Option String
  contentSpan : Option String
  sizeP : Option String
deriving DecidableEq

def emptyCell : Cell :=
  { text := "", anchor := none, dataColPrev := none, dataCol := none,
    contentSpan := none, sizeP := none }

/-- A located `<table>`: its `<tbody>` (`none` when `find("tbody")` fails),
holding the `<tr>` rows, each as its `<td>` list. -/
structure HtmlTable where
  tbody : Option (List (List Cell))
deriving DecidableEq

/-- The announcements page as `_parse_announcements_table` probes it:
lookup by id `CFanncEquityTable` first, then by the `CFannc` class
heuristic (lines 805-816). -/
structure AnnHtml where
  byId : Option HtmlTable
  byClass : Option HtmlTable
deriving DecidableEq

/-- Cell 0 handling common to all four parsers: prefer the symbol link's
text over the raw cell text. -/
def symbolCellText (c : Cell) : String :=
  match c.anchor with
  | some a => a.text
  | none => c.text

/-- `anchor["href"] if anchor and anchor.has_attr("href") else ""`. -/
def hrefOrEmpty (c : Cell) : String :=
  match c.anchor with
  | some a =>
    match a.href with
    | some h => h
    | none => ""
  | none => ""

/-- Python truthiness on an optional string: `None` and `""` are falsy. -/
def truthyStr : Option String → Option String
  | some s => if s = "" then none else some s
  | none => none

/-- Python `a or b` on two optional strings. -/
def firstTruthy (a b : Option String) : Option String :=
  match truthyStr a with
  | some s => some s
  | none => truthyStr b

/-- Details-cell handling of `_parse_event_calendar_table` (lines 564-574):
`get("data-ws-symbol-col-prev") or get("data-ws-symbol-col")`, stripped if
truthy, else the `span.content` text, else the cell text. -/
def eventDetailsText (c : Cell) : String :=
  match firstTruthy c.dataColPrev c.dataCol with
  | some s => pyStrip s
  | none =>
    match c.contentSpan with
    | some s => s
    | none => c.text

/-- Details-cell handling of `_parse_announcements_table` (lines 841-859):
the `-prev` attribute if truthy, else `data-ws-symbol-col` if truthy, else
the `span.content` text, else the cell text. -/
def anncDetailsText (c : Cell) : String :=
  match truthyStr c.dataColPrev with
  | some s => pyStrip s
  | none =>
    match truthyStr c.dataCol with
    | some s => pyStrip s
    | none =>
      match c.contentSpan with
      | some s => s
      | none => c.text

/-- Attachment-cell handling of `_parse_announcements_table` (lines
861-871): the link and the size are set only inside the
`anchor.has_attr("href")` branch; the size comes from `p.mt-1`. -/
def anncAttachment (c : Cell) : String × String :=
  match c.anchor with
  | some a =>
    match a.href with
    | some h =>
      (h, match c.sizeP with
          | some s => s
          | none => "")
    | none => ("", "")
  | none => ("", "")

/-- Python `s.startswith("/")`: the first character is a slash. -/
def startsWithSlash (s : String) : Bool :=
  match s.data with
  | [] => false
  | c :: _ => c == '/'

/-- Root-relative-to-absolute rewrite applied to the XBRL link
(lines 879-881). -/
def normalizeHref (s : String) : String :=
  if startsWithSlash s then NSE_BASE_URL ++ s else s

/-- XBRL-cell handling of `_parse_announcements_table` (lines 873-881). -/
def anncXbrlLink (c : Cell) : String :=
  match c.anchor with
  | some a =>
    match a.href with
    | some h => if startsWithSlash h then NSE_BASE_URL ++ h else h
    | none => ""
  | none => ""

/-- Python `" ".join(s.split())`: collapse whitespace runs. -/
def collapseWs (s : String) : String :=
  String.intercalate " " ((s.split (fun c => c.isWhitespace)).filter (fun t => t ≠ ""))

/-- Broadcast-cell handling of `_parse_announcements_table` (lines
883-893): the link text with whitespace collapsed when the date sits in an
anchor, else the cell text. -/
def anncBroadcast (c : Cell) : String :=
  match c.anchor with
  | some a => collapseWs a.text
  | none => c.text

/-- One `<tr>` of the event-calendar table (lines 547-589): skipped below
4 cells; the date is read only when a 5th cell exists. -/
def eventCalendarRowOfTr (tds : List Cell) : Option EventCalendarRow :=
  if tds.length < 4 then none
  else some
    { symbol := symbolCellText (tds.getD 0 emptyCell)
      company := (tds.getD 1 emptyCell).text
      purpose := (tds.getD 2 emptyCell).text
      details := eventDetailsText (tds.getD 3 emptyCell)
      date := if 5 ≤ tds.length then (tds.getD 4 emptyCell).text else "" }

/-- One `<tr>` of the board-meetings table (lines 607-649): skipped below
7 cells. -/
def boardMeetingRowOfTr (tds : List Cell) : Option BoardMeetingRow :=
  if tds.length < 7 then none
  else some
    { symbol := symbolCellText (tds.getD 0 emptyCell)
      company := (tds.getD 1 emptyCell).text
      purpose := (tds.getD 2 emptyCell).text
      details_link := hrefOrEmpty (tds.getD 3 emptyCell)
      meeting_date := (tds.getD 4 emptyCell).text
      attachment_link := hrefOrEmpty (tds.getD 5 emptyCell)
      broadcast_datetime := (tds.getD 6 emptyCell).text }

/-- One `<tr>` of the corporate-actions table (lines 667-697): skipped
below 9 cells. -/
def corpActionRowOfTr (tds : List Cell) : Option CorporateActionRow :=
  if tds.length < 9 then none
  else some
    { symbol := symbolCellText (tds.getD 0 emptyCell)
      company := (tds.getD 1 emptyCell).text
      series := (tds.getD 2 emptyCell).text
      purpose := (tds.getD 3 emptyCell).text
      face_value := (tds.getD 4 emptyCell).text
      ex_date := (tds.getD 5 emptyCell).text
      record_date := (tds.getD 6 emptyCell).text
      book_closure_start := (tds.getD 7 emptyCell).text
      book_closure_end := (tds.getD 8 emptyCell).text }

/-- One `<tr>` of the announcements table (lines 823-909): skipped below
7 cells. -/
def announcementRowOfTr (tds : List Cell) : Option AnnouncementRow :=
  if tds.length < 7 then none
  else some
    { symbol := symbolCellText (tds.getD 0 emptyCell)
      company := (tds.getD 1 emptyCell).text
      subject := (tds.getD 2 emptyCell).text
      details := anncDetailsText (tds.getD 3 emptyCell)
      attachment_link := (anncAttachment (tds.getD 4 emptyCell)).1
      attachment_size := (anncAttachment (tds.getD 4 emptyCell)).2
      xbrl_link := anncXbrlLink (tds.getD 5 emptyCell)
      broadcast_datetime := anncBroadcast (tds.getD 6 emptyCell) }

/-- Shared table-walk shape of all four parsers: no table or no tbody is
an empty (not erroneous) result; rows are visited top to bottom. -/
def parseTableBody {ρ : Type} (rowOfTr : List Cell → Option ρ) (t : Option HtmlTable) : List ρ :=
  match t with
  | none => []
  | some tbl =>
    match tbl.tbody with
    | none => []
    | some trs => trs.filterMap rowOfTr

/-- `_parse_event_calendar_table` (lines 532-590), from the located
`CFeventCalendarTable`. -/
def _parse_event_calendar_table (t : Option HtmlTable) : List EventCalendarRow :=
  parseTableBody eventCalendarRowOfTr t

/-- `_parse_board_meetings_table` (lines 593-650), from the located
`CFboardmeetingEquityTable`. -/
def _parse_board_meetings_table (t : Option HtmlTable) : List BoardMeetingRow :=
  parseTableBody boardMeetingRowOfTr t

/-- `_parse_corporate_actions_table` (lines 653-699), from the located
`CFcorpactionsEquityTable`. -/
def _parse_corporate_actions_table (t : Option HtmlTable) : List CorporateActionRow :=
  parseTableBody corpActionRowOfTr t

/-- `_parse_announcements_table` (lines 798-911): id lookup first, then
the class heuristic. -/
def _parse_announcements_table (h : AnnHtml) : List AnnouncementRow :=
  match h.byId with
  | some t => parseTableBody announcementRowOfTr (some t)
  | none => parseTableBody announcementRowOfTr h.byClass

/-- Failure modes surfaced by the orchestrators. -/
inductive ScrapeError where
  | fallbackDisabled
  | seleniumFailure
  | timeout
deriving DecidableEq

/-- The Selenium branch shared by the event-calendar, board-meetings and
corporate-actions orchestrators: disabled fallback raises; a driver/wait
failure propagates; otherwise the rendered page is parsed. -/
def seleniumFallbackStep {ρ : Type} (parse : Option HtmlTable → List ρ) (useFb : Bool)
    (sel : Except Unit (Option HtmlTable)) : Except ScrapeError (List ρ) :=
  if useFb then
    match sel with
    | .ok t => .ok (parse t)
    | .error _ => .error .seleniumFailure
  else .error .fallbackDisabled

/-- `get_event_calendar_for_symbol` (lines 702-731).  `apiResp` is the
API call's outcome (`.error` = it raised); `sel` is the table found in the
rendered page after a successful Selenium wait (`.error` = the Selenium
path raised). -/
def get_event_calendar_for_symbol (symbol : String) (apiResp : Except Unit Payload)
    (useFb : Bool) (sel : Except Unit (Option HtmlTable)) :
    Except ScrapeError (List EventCalendarRow) :=
  match apiResp with
  | .ok p =>
    if (_fetch_event_calendar_api (pyStrip (pyUpper symbol)) p).isEmpty then
      seleniumFallbackStep _parse_event_calendar_table useFb sel
    else .ok (_fetch_event_calendar_api (pyStrip (pyUpper symbol)) p)
  | .error _ => seleniumFallbackStep _parse_event_calendar_table useFb sel

/-- `get_board_meetings_for_symbol` (lines 734-763). -/
def get_board_meetings_for_symbol (symbol : String) (apiResp : Except Unit Payload)
    (useFb : Bool) (sel : Except Unit (Option HtmlTable)) :
    Except ScrapeError (List BoardMeetingRow) :=
  match apiResp with
  | .ok p =>
    if (_fetch_board_meetings_api (pyStrip (pyUpper symbol)) p).isEmpty then
      seleniumFallbackStep _parse_board_meetings_table useFb sel
    else .ok (_fetch_board_meetings_api (pyStrip (pyUpper symbol)) p)
  | .error _ => seleniumFallbackStep _parse_board_meetings_table useFb sel

/-- `get_corporate_actions_for_symbol` (lines 766-795). -/
def get_corporate_actions_for_symbol (symbol : String) (apiResp : Except Unit Payload)
    (useFb : Bool) (sel : Except Unit (Option HtmlTable)) :
    Except ScrapeError (List CorporateActionRow) :=
  match apiResp with
  | .ok p =>
    if (_fetch_corporate_actions_api (pyStrip (pyUpper symbol)) p).isEmpty then
      seleniumFallbackStep _parse_corporate_actions_table useFb sel
    else .ok (_fetch_corporate_actions_api (pyStrip (pyUpper symbol)) p)
  | .error _ => seleniumFallbackStep _parse_corporate_actions_table useFb sel

/-- The announcements page's behaviour during the render wait: either some
poll observed a positive row count (and the page source at that point is
returned), or the hard timeout elapsed with every poll seeing zero rows
(`finalHtml` is the page source at timeout). -/
inductive PageRun where
  | ready (html : AnnHtml)
  | neverReady (finalHtml : AnnHtml)
deriving DecidableEq

/-- The diagnostic artifacts `_save_debug_artifacts` writes on timeout. -/
structure DebugArtifacts where
  screenshotSaved : Bool
  htmlSaved : Bool
deriving DecidableEq

/-- `wait_for_table_rows` (lines 272-387): returns the page source once a
poll sees rows; on hard timeout it saves both debug artifacts and raises
`TimeoutException` - there is no parse attempt on this path. -/
def wait_for_table_rows : PageRun → Except DebugArtifacts AnnHtml
  | .ready h => .ok h
  | .neverReady _ => .error { screenshotSaved := true, htmlSaved := true }

/-- `driver.page_source` at the end of the wait, as read by the timeout
handler of `get_announcements_for_symbol`. -/
def pageFinalHtml : PageRun → AnnHtml
  | .ready h => h
  | .neverReady h => h

/-- The API attempt of `get_announcements_for_symbol` (lines 930-941):
`none` session models `_init_nse_session` raising inside the fetcher. -/
def annApiAttempt (session : Option (String → Option Payload)) (sym : String) :
    Option (List AnnouncementRow) :=
  match session with
  | none => none
  | some responses => some (_fetch_announcements_api sym responses)

/-- Rows returned after a successful wait (lines 1049-1074): parse, then
one scroll-triggered re-parse whose result is kept only when it strictly
increases the row count. -/
def annReadyResult (h scr : AnnHtml) : List AnnouncementRow :=
  if (_parse_announcements_table h).isEmpty then _parse_announcements_table h
  else
    if (_parse_announcements_table h).length < (_parse_announcements_table scr).length then
      _parse_announcements_table scr
    else _parse_announcements_table h

/-- The Selenium branch of `get_announcements_for_symbol` (lines 950-1132):
on a successful wait, parse with the scroll re-check; on timeout, the
handler parses the final page source and re-raises only when that
last-chance parse yields nothing. -/
def annSeleniumFallback (run : PageRun) (scr : AnnHtml) :
    Except ScrapeError (List AnnouncementRow) :=
  match wait_for_table_rows run with
  | .ok h => .ok (annReadyResult h scr)
  | .error _ =>
    if (_parse_announcements_table (pageFinalHtml run)).isEmpty then .error .timeout
    else .ok (_parse_announcements_table (pageFinalHtml run))

/-- `get_announcements_for_symbol` (lines 914-1161): API first, Selenium
only when the API yields nothing; `scr` is the page source after the
scroll re-check. -/
def get_announcements_for_symbol (symbol : String) (session : Option (String → Option Payload))
    (useFb : Bool) (run : PageRun) (scr : AnnHtml) :
    Except ScrapeError (List AnnouncementRow) :=
  match annApiAttempt session (pyStrip (pyUpper symbol)) with
  | some rows =>
    if rows.isEmpty then
      if useFb then annSeleniumFallback run scr else .error .fallbackDisabled
    else .ok rows
  | none =>
    if useFb then annSeleniumFallback run scr else .error .fallbackDisabled

/-! Concrete inputs used by the witness and counterexample theorems. -/

def itemC1 : Item := { fields := [("symbol", "TCS"), ("company", "Tata Consultancy")] }

def payC1 : Payload := { dataField := some [itemC1], rowsField := none, selfItems := [] }

def payC1empty : Payload := { dataField := none, rowsField := none, selfItems := [] }

def tblC1 : Option HtmlTable := some { tbody := some [] }

def annRespNone : String → Option Payload := fun _ => none

def annHtmlNone : AnnHtml := { byId := none, byClass := none }

def itemC3 : Item := { fields := [("desc", "Quarterly Results")] }

def payC3 : Payload := { dataField := some [itemC3], rowsField := none, selfItems := [] }

def annRespC3 : String → Option Payload :=
  fun t => if t = "Announcements" then some payC3 else none

def itemC4 : Item := { fields := [("symbol", "ABC")] }

def payC4data : Payload := { dataField := some [itemC4], rowsField := some [], selfItems := [] }

def payC4rows : Payload := { dataField := some [], rowsField := some [itemC4], selfItems := [] }

def payC4none : Payload := { dataField := none, rowsField := none, selfItems := [] }

def annRespC4 : String → Option Payload := fun _ => some payC4none

def bmLinkCellC5 : Cell :=
  { text := "PDF", anchor := some { text := "PDF", href := some "/x.pdf" },
    dataColPrev := none, dataCol := none, contentSpan := none, sizeP := none }

def bmTrC5 : List Cell :=
  [emptyCell, emptyCell, emptyCell, emptyCell, emptyCell, bmLinkCellC5, emptyCell]

def bmRowC5 : BoardMeetingRow :=
  { symbol := "", company := "", purpose := "", details_link := "", meeting_date := "",
    attachment_link := "/x.pdf", broadcast_datetime := "" }

def itemC6 : Item := { fields := [("symbol", " tcs2 ")] }

def payC6 : Payload := { dataField := some [itemC6], rowsField := none, selfItems := [] }

def emptyTrC6 : List Cell := [emptyCell, emptyCell, emptyCell, emptyCell]

def itemC7 : Item := { fields := [("a", ""), ("b", " x "), ("c", "y")] }

def annTrC8 : List Cell :=
  [emptyCell, emptyCell, emptyCell, emptyCell, emptyCell, emptyCell, emptyCell]

def annHtmlC8 : AnnHtml := { byId := some { tbody := some [annTrC8] }, byClass := none }

def annAttCellC10 : Cell :=
  { text := "att", anchor := some { text := "PDF", href := some "" },
    dataColPrev := none, dataCol := none, contentSpan := none, sizeP := some "2.3 MB" }

def annTrC10 : List Cell :=
  [emptyCell, emptyCell, emptyCell, emptyCell, annAttCellC10, emptyCell, emptyCell]

def annHtmlC10 : AnnHtml := { byId := some { tbody := some [annTrC10] }, byClass := none }

def annRowC10 : AnnouncementRow :=
  { symbol := "", company := "", subject := "", details := "", attachment_link := "",
    attachment_size := "2.3 MB", xbrl_link := "", broadcast_datetime := "" }

/-! General helper lemmas. -/

theorem not_lt_decide (m n : Nat) : (!decide (n < m)) = decide (m ≤ n) := by
  by_cases h : n < m
  · simp [h, Nat.not_le.mpr h]
  · simp [h, Nat.not_lt.mp h]

theorem filterMap_threshold {α β : Type} (f : α → Option β) (p : α → Bool)
    (hf : ∀ a, (f a).isSome = p a) :
    ∀ l : List α, l.filterMap f = (l.filter p).filterMap f ∧
      (l.filterMap f).length = l.countP p := by
  intro l
  induction l with
  | nil => exact ⟨rfl, rfl⟩
  | cons a t ih =>
    cases hfa : f a with
    | none =>
      have hpa : p a = false := by rw [← hf a, hfa]; rfl
      constructor
      · simp [List.filterMap_cons, List.filter_cons, hfa, hpa, ih.1]
      · simp [List.filterMap_cons, List.countP_cons, hfa, hpa, ih.2]
    | some b =>
      have hpa : p a = true := by rw [← hf a, hfa]; rfl
      constructor
      · simp [List.filterMap_cons, List.filter_cons, hfa, hpa]
        rw [← ih.1]
      · simp [List.filterMap_cons, List.countP_cons, hfa, hpa, ih.2]

theorem eventCalendarRowOfTr_isSome (tds : List Cell) :
    (eventCalendarRowOfTr tds).isSome = decide (4 ≤ tds.length) := by
  unfold eventCalendarRowOfTr
  by_cases h : tds.length < 4
  · simp [h, Nat.not_le.mpr h]
  · simp [h, Nat.not_lt.mp h]

theorem boardMeetingRowOfTr_isSome (tds : List Cell) :
    (boardMeetingRowOfTr tds).isSome = decide (7 ≤ tds.length) := by
  unfold boardMeetingRowOfTr
  by_cases h : tds.length < 7
  · simp [h, Nat.not_le.mpr h]
  · simp [h, Nat.not_lt.mp h]

theorem corpActionRowOfTr_isSome (tds : List Cell) :
    (corpActionRowOfTr tds).isSome = decide (9 ≤ tds.length) := by
  unfold corpActionRowOfTr
  by_cases h : tds.length < 9
  · simp [h, Nat.not_le.mpr h]
  · simp [h, Nat.not_lt.mp h]

theorem announcementRowOfTr_isSome (tds : List Cell) :
    (announcementRowOfTr tds).isSome = decide (7 ≤ tds.length) := by
  unfold announcementRowOfTr
  by_cases h : tds.length < 7
  · simp [h, Nat.not_le.mpr h]
  · simp [h, Nat.not_lt.mp h]

/-! Orchestrator branch lemmas, shared by several claim theorems. -/

theorem eventOrch_api_nonempty (sym : String) (p : Payload) (fb : Except Unit (Option HtmlTable))
    (h : _fetch_event_calendar_api (pyStrip (pyUpper sym)) p ≠ []) :
    get_event_calendar_for_symbol sym (.ok p) true fb =
      .ok (_fetch_event_calendar_api (pyStrip (pyUpper sym)) p) := by
  unfold get_event_calendar_for_symbol
  cases hr : _fetch_event_calendar_api (pyStrip (pyUpper sym)) p with
  | nil => exact absurd hr h
  | cons a t => simp [hr]

theorem eventOrch_api_empty (sym : String) (p : Payload) (t : Option HtmlTable)
    (h : _fetch_event_calendar_api (pyStrip (pyUpper sym)) p = []) :
    get_event_calendar_for_symbol sym (.ok p) true (.ok t) =
      .ok (_parse_event_calendar_table t) := by
  simp [get_event_calendar_for_symbol, h, seleniumFallbackStep]

theorem eventOrch_api_error (sym : String) (t : Option HtmlTable) :
    get_event_calendar_for_symbol sym (.error ()) true (.ok t) =
      .ok (_parse_event_calendar_table t) := rfl

theorem boardOrch_api_nonempty (sym : String) (p : Payload) (fb : Except Unit (Option HtmlTable))
    (h : _fetch_board_meetings_api (pyStrip (pyUpper sym)) p ≠ []) :
    get_board_meetings_for_symbol sym (.ok p) true fb =
      .ok (_fetch_board_meetings_api (pyStrip (pyUpper sym)) p) := by
  unfold get_board_meetings_for_symbol
  cases hr : _fetch_board_meetings_api (pyStrip (pyUpper sym)) p with
  | nil => exact absurd hr h
  | cons a t => simp [hr]

theorem boardOrch_api_empty (sym : String) (p : Payload) (t : Option HtmlTable)
    (h : _fetch_board_meetings_api (pyStrip (pyUpper sym)) p = []) :
    get_board_meetings_for_symbol sym (.ok p) true (.ok t) =
      .ok (_parse_board_meetings_table t) := by
  simp [get_board_meetings_for_symbol, h, seleniumFallbackStep]

theorem boardOrch_api_error (sym : String) (t : Option HtmlTable) :
    get_board_meetings_for_symbol sym (.error ()) true (.ok t) =
      .ok (_parse_board_meetings_table t) := rfl

theorem corpOrch_api_nonempty (sym : String) (p : Payload) (fb : Except Unit (Option HtmlTable))
    (h : _fetch_corporate_actions_api (pyStrip (pyUpper sym)) p ≠ []) :
    get_corporate_actions_for_symbol sym (.ok p) true fb =
      .ok (_fetch_corporate_actions_api (pyStrip (pyUpper sym)) p) := by
  unfold get_corporate_actions_for_symbol
  cases hr : _fetch_corporate_actions_api (pyStrip (pyUpper sym)) p with
  | nil => exact absurd hr h
  | cons a t => simp [hr]

theorem corpOrch_api_empty (sym : String) (p : Payload) (t : Option HtmlTable)
    (h : _fetch_corporate_actions_api (pyStrip (pyUpper sym)) p = []) :
    get_corporate_actions_for_symbol sym (.ok p) true (.ok t) =
      .ok (_parse_corporate_actions_table t) := by
  simp [get_corporate_actions_for_symbol, h, seleniumFallbackStep]

theorem corpOrch_api_error (sym : String) (t : Option HtmlTable) :
    get_corporate_actions_for_symbol sym (.error ()) true (.ok t) =
      .ok (_parse_corporate_actions_table t) := rfl

theorem annOrch_api_nonempty (sym : String) (responses : String → Option Payload)
    (run : PageRun) (scr : AnnHtml)
    (h : _fetch_announcements_api (pyStrip (pyUpper sym)) responses ≠ []) :
    get_announcements_for_symbol sym (some responses) true run scr =
      .ok (_fetch_announcements_api (pyStrip (pyUpper sym)) responses) := by
  unfold get_announcements_for_symbol annApiAttempt
  cases hr : _fetch_announcements_api (pyStrip (pyUpper sym)) responses with
  | nil => exact absurd hr h
  | cons a t => simp [hr]

theorem annOrch_fallback_of_apiEmpty (sym : String) (session : Option (String → Option Payload))
    (run : PageRun) (scr : AnnHtml)
    (h : annApiAttempt session (pyStrip (pyUpper sym)) = none ∨
         annApiAttempt session (pyStrip (pyUpper sym)) = some []) :
    get_announcements_for_symbol sym session true run scr = annSeleniumFallback run scr := by
  unfold get_announcements_for_symbol
  rcases h with h | h <;> rw [h] <;> simp

theorem annFallback_ready (h scr : AnnHtml) :
    annSeleniumFallback (.ready h) scr = .ok (annReadyResult h scr) := rfl

theorem annFallback_timeout_rows (fh scr : AnnHtml)
    (h : _parse_announcements_table fh ≠ []) :
    annSeleniumFallback (.neverReady fh) scr = .ok (_parse_announcements_table fh) := by
  unfold annSeleniumFallback wait_for_table_rows pageFinalHtml
  cases hr : _parse_announcements_table fh with
  | nil => exact absurd hr h
  | cons a t => simp [hr]

theorem annFallback_timeout_empty (fh scr : AnnHtml)
    (h : _parse_announcements_table fh = []) :
    annSeleniumFallback (.neverReady fh) scr = .error .timeout := by
  unfold annSeleniumFallback wait_for_table_rows pageFinalHtml
  simp [h]

theorem annReadyResult_cases (h scr : AnnHtml) :
    annReadyResult h scr = _parse_announcements_table h ∨
    annReadyResult h scr = _parse_announcements_table scr := by
  unfold annReadyResult
  by_cases h1 : (_parse_announcements_table h).isEmpty
  · left; simp [h1]
  · simp only [h1, if_false]
    by_cases h2 :
        (_parse_announcements_table h).length < (_parse_announcements_table scr).length
    · right; simp [h2]
    · left; simp [h2]

/-- Claim C1: for every symbol and category, a non-empty API fetch is
returned as-is (the fallback never runs into the result), and an empty or
raising API fetch makes the orchestrator return exactly the rows of the
fallback parse; the two row sources are never combined. -/
theorem orchestrator_api_first_exclusive :
    (∀ (sym : String) (p : Payload) (fb : Except Unit (Option HtmlTable)),
       _fetch_event_calendar_api (pyStrip (pyUpper sym)) p ≠ [] →
       get_event_calendar_for_symbol sym (.ok p) true fb =
         .ok (_fetch_event_calendar_api (pyStrip (pyUpper sym)) p)) ∧
    (∀ (sym : String) (p : Payload) (t : Option HtmlTable),
       _fetch_event_calendar_api (pyStrip (pyUpper sym)) p = [] →
       get_event_calendar_for_symbol sym (.ok p) true (.ok t) =
         .ok (_parse_event_calendar_table t)) ∧
    (∀ (sym : String) (t : Option HtmlTable),
       get_event_calendar_for_symbol sym (.error ()) true (.ok t) =
         .ok (_parse_event_calendar_table t)) ∧
    (∀ (sym : String) (p : Payload) (fb : Except Unit (Option HtmlTable)),
       _fetch_board_meetings_api (pyStrip (pyUpper sym)) p ≠ [] →
       get_board_meetings_for_symbol sym (.ok p) true fb =
         .ok (_fetch_board_meetings_api (pyStrip (pyUpper sym)) p)) ∧
    (∀ (sym : String) (p : Payload) (t : Option HtmlTable),
       _fetch_board_meetings_api (pyStrip (pyUpper sym)) p = [] →
       get_board_meetings_for_symbol sym (.ok p) true (.ok t) =
         .ok (_parse_board_meetings_table t)) ∧
    (∀ (sym : String) (t : Option HtmlTable),
       get_board_meetings_for_symbol sym (.error ()) true (.ok t) =
         .ok (_parse_board_meetings_table t)) ∧
    (∀ (sym : String) (p : Payload) (fb : Except Unit (Option HtmlTable)),
       _fetch_corporate_actions_api (pyStrip (pyUpper sym)) p ≠ [] →
       get_corporate_actions_for_symbol sym (.ok p) true fb =
         .ok (_fetch_corporate_actions_api (pyStrip (pyUpper sym)) p)) ∧
    (∀ (sym : String) (p : Payload) (t : Option HtmlTable),
       _fetch_corporate_actions_api (pyStrip (pyUpper sym)) p = [] →
       get_corporate_actions_for_symbol sym (.ok p) true (.ok t) =
         .ok (_parse_corporate_actions_table t)) ∧
    (∀ (sym : String) (t : Option HtmlTable),
       get_corporate_actions_for_symbol sym (.error ()) true (.ok t) =
         .ok (_parse_corporate_actions_table t)) ∧
    (∀ (sym : String) (responses : String → Option Payload) (run : PageRun) (scr : AnnHtml),
       _fetch_announcements_api (pyStrip (pyUpper sym)) responses ≠ [] →
       get_announcements_for_symbol sym (some responses) true run scr =
         .ok (_fetch_announcements_api (pyStrip (pyUpper sym)) responses)) ∧
    (∀ (sym : String) (session : Option (String → Option Payload)) (h scr : AnnHtml),
       (annApiAttempt session (pyStrip (pyUpper sym)) = none ∨
        annApiAttempt session (pyStrip (pyUpper sym)) = some []) →
       get_announcements_for_symbol sym session true (.ready h) scr =
         .ok (_parse_announcements_table h) ∨
       get_announcements_for_symbol sym session true (.ready h) scr =
         .ok (_parse_announcements_table scr)) ∧
    (∀ (sym : String) (session : Option (String → Option Payload)) (fh scr : AnnHtml),
       (annApiAttempt session (pyStrip (pyUpper sym)) = none ∨
        annApiAttempt session (pyStrip (pyUpper sym)) = some []) →
       get_announcements_for_symbol sym session true (.neverReady fh) scr =
         .ok (_parse_announcements_table fh) ∨
       get_announcements_for_symbol sym session true (.neverReady fh) scr =
         .error .timeout) := by
  refine ⟨eventOrch_api_nonempty, eventOrch_api_empty, eventOrch_api_error,
          boardOrch_api_nonempty, boardOrch_api_empty, boardOrch_api_error,
          corpOrch_api_nonempty, corpOrch_api_empty, corpOrch_api_error,
          annOrch_api_nonempty, ?_, ?_⟩
  · intro sym session h scr hapi
    rw [annOrch_fallback_of_apiEmpty sym session _ scr hapi, annFallback_ready]
    rcases annReadyResult_cases h scr with hc | hc
    · left; rw [hc]
    · right; rw [hc]
  · intro sym session fh scr hapi
    rw [annOrch_fallback_of_apiEmpty sym session _ scr hapi]
    cases hr : _parse_announcements_table fh with
    | nil => right; exact annFallback_timeout_empty fh scr hr
    | cons a t =>
      left
      rw [annFallback_timeout_rows fh scr (by rw [hr]; exact List.cons_ne_nil a t), hr]

/-- Claim C1 witness: concrete instantiations of the hypothesised
branches (non-empty API result returned verbatim; empty API result
replaced by the fallback parse; announcements fallback after an
all-empty probe). -/
theorem orchestrator_api_first_exclusive_witness :
    (get_event_calendar_for_symbol "tcs" (.ok payC1) true (.ok tblC1) =
       .ok (_fetch_event_calendar_api (pyStrip (pyUpper "tcs")) payC1)) ∧
    (get_event_calendar_for_symbol "tcs" (.ok payC1empty) true (.ok tblC1) =
       .ok (_parse_event_calendar_table tblC1)) ∧
    (get_announcements_for_symbol "tcs" (some annRespNone) true (.ready annHtmlNone) annHtmlNone =
       .ok (_parse_announcements_table annHtmlNone) ∨
     get_announcements_for_symbol "tcs" (some annRespNone) true (.ready annHtmlNone) annHtmlNone =
       .ok (_parse_announcements_table annHtmlNone)) :=
  ⟨orchestrator_api_first_exclusive.1 "tcs" payC1 (.ok tblC1) (by decide),
   orchestrator_api_first_exclusive.2.1 "tcs" payC1empty tblC1 (by decide),
   orchestrator_api_first_exclusive.2.2.2.2.2.2.2.2.2.2.1 "tcs" (some annRespNone)
     annHtmlNone annHtmlNone (Or.inr rfl)⟩

/-- Claim C2: in each of the four table parsers a tbody row is admitted
into the output iff its cell count reaches the category minimum (4 for
EventCalendar, 7 for BoardMeeting and Announcement, 9 for
CorporateAction): rows below the threshold can be filtered away without
changing the output, and the output length counts exactly the rows at or
above the threshold. -/
theorem row_admission_threshold :
    (∀ trs : List (List Cell),
       _parse_event_calendar_table (some { tbody := some trs }) =
         _parse_event_calendar_table
           (some { tbody := some (trs.filter (fun r => decide (4 ≤ r.length))) }) ∧
       (_parse_event_calendar_table (some { tbody := some trs })).length =
         trs.countP (fun r => decide (4 ≤ r.length))) ∧
    (∀ trs : List (List Cell),
       _parse_board_meetings_table (some { tbody := some trs }) =
         _parse_board_meetings_table
           (some { tbody := some (trs.filter (fun r => decide (7 ≤ r.length))) }) ∧
       (_parse_board_meetings_table (some { tbody := some trs })).length =
         trs.countP (fun r => decide (7 ≤ r.length))) ∧
    (∀ trs : List (List Cell),
       _parse_corporate_actions_table (some { tbody := some trs }) =
         _parse_corporate_actions_table
           (some { tbody := some (trs.filter (fun r => decide (9 ≤ r.length))) }) ∧
       (_parse_corporate_actions_table (some { tbody := some trs })).length =
         trs.countP (fun r => decide (9 ≤ r.length))) ∧
    (∀ trs : List (List Cell),
       _parse_announcements_table { byId := some { tbody := some trs }, byClass := none } =
         _parse_announcements_table
           { byId := some { tbody := some (trs.filter (fun r => decide (7 ≤ r.length))) },
             byClass := none } ∧
       (_parse_announcements_table
           { byId := some { tbody := some trs }, byClass := none }).length =
         trs.countP (fun r => decide (7 ≤ r.length))) := by
  refine ⟨?_, ?_, ?_, ?_⟩
  · intro trs
    exact ⟨(filterMap_threshold _ _ eventCalendarRowOfTr_isSome trs).1,
           (filterMap_threshold _ _ eventCalendarRowOfTr_isSome trs).2⟩
  · intro trs
    exact ⟨(filterMap_threshold _ _ boardMeetingRowOfTr_isSome trs).1,
           (filterMap_threshold _ _ boardMeetingRowOfTr_isSome trs).2⟩
  · intro trs
    exact ⟨(filterMap_threshold _ _ corpActionRowOfTr_isSome trs).1,
           (filterMap_threshold _ _ corpActionRowOfTr_isSome trs).2⟩
  · intro trs
    exact ⟨(filterMap_threshold _ _ announcementRowOfTr_isSome trs).1,
           (filterMap_threshold _ _ announcementRowOfTr_isSome trs).2⟩

/-- Claim C9: a tbody row of the event-calendar table with exactly 4
cells is admitted, and its `date` field is the empty string (the date
cell is only read from a 5th cell). -/
theorem event_min_cells_blank_date (c0 c1 c2 c3 : Cell) :
    _parse_event_calendar_table (some { tbody := some [[c0, c1, c2, c3]] }) =
      [{ symbol := symbolCellText c0, company := c1.text, purpose := c2.text,
         details := eventDetailsText c3, date := "" }] := rfl

theorem fetchLoop_cons_empty (sym : String) (responses : String → Option Payload)
    (t : String) (ts : List String) (h : annYield responses t = []) :
    fetchAnnouncementsLoop sym responses (t :: ts) = fetchAnnouncementsLoop sym responses ts := by
  simp [fetchAnnouncementsLoop, h]

theorem fetchLoop_cons_hit (sym : String) (responses : String → Option Payload)
    (t : String) (ts : List String) (h : annYield responses t ≠ []) :
    fetchAnnouncementsLoop sym responses (t :: ts) =
      (annYield responses t).map (mkAnnouncementRow sym) := by
  unfold fetchAnnouncementsLoop
  cases hy : annYield responses t with
  | nil => exact absurd hy h
  | cons a l => simp [hy]

/-- Claim C3: `_fetch_announcements_api` probes the type labels
"Announcement", "Corporate Announcement", "Announcements" in that order
against the same endpoint, returns the mapped rows of the first label
whose payload yields items (later labels untried), and returns the empty
list - not an error - when no label yields items. -/
theorem announcements_label_probe (sym : String) (responses : String → Option Payload) :
    (annYield responses "Announcement" ≠ [] →
       _fetch_announcements_api sym responses =
         (annYield responses "Announcement").map (mkAnnouncementRow sym)) ∧
    (annYield responses "Announcement" = [] →
     annYield responses "Corporate Announcement" ≠ [] →
       _fetch_announcements_api sym responses =
         (annYield responses "Corporate Announcement").map (mkAnnouncementRow sym)) ∧
    (annYield responses "Announcement" = [] →
     annYield responses "Corporate Announcement" = [] →
     annYield responses "Announcements" ≠ [] →
       _fetch_announcements_api sym responses =
         (annYield responses "Announcements").map (mkAnnouncementRow sym)) ∧
    (annYield responses "Announcement" = [] →
     annYield responses "Corporate Announcement" = [] →
     annYield responses "Announcements" = [] →
       _fetch_announcements_api sym responses = []) := by
  unfold _fetch_announcements_api announcementTypeLabels
  refine ⟨?_, ?_, ?_, ?_⟩
  · intro h1
    exact fetchLoop_cons_hit sym responses _ _ h1
  · intro h1 h2
    rw [fetchLoop_cons_empty sym responses _ _ h1]
    exact fetchLoop_cons_hit sym responses _ _ h2
  · intro h1 h2 h3
    rw [fetchLoop_cons_empty sym responses _ _ h1, fetchLoop_cons_empty sym responses _ _ h2]
    exact fetchLoop_cons_hit sym responses _ _ h3
  · intro h1 h2 h3
    rw [fetchLoop_cons_empty sym responses _ _ h1, fetchLoop_cons_empty sym responses _ _ h2,
        fetchLoop_cons_empty sym responses _ _ h3]
    rfl

/-- Claim C3 witness: with responses where only the third label
("Announcements") yields items, the fetcher returns that label's mapped
rows. -/
theorem announcements_label_probe_witness :
    _fetch_announcements_api "TCS" annRespC3 =
      (annYield annRespC3 "Announcements").map (mkAnnouncementRow "TCS") :=
  (announcements_label_probe "TCS" annRespC3).2.2.1 (by decide) (by decide) (by decide)

theorem pick_default_of_all_empty (it : Item) (d : String) :
    ∀ keys : List String, (∀ k ∈ keys, ∀ v, Item.get it k = some v → v = "") →
      _pick it keys d = d := by
  intro keys
  induction keys with
  | nil => intro _; rfl
  | cons k ks ih =>
    intro h
    have hk := h k (List.mem_cons_self k ks)
    have hks : ∀ k' ∈ ks, ∀ v, Item.get it k' = some v → v = "" :=
      fun k' hk' => h k' (List.mem_cons_of_mem k hk')
    unfold _pick
    cases hg : Item.get it k with
    | none => exact ih hks
    | some v =>
      have hv : v = "" := hk v hg
      simp only [hv, ne_eq, not_true_eq_false, if_false]
      exact ih hks

theorem pick_first_hit (it : Item) (d : String) :
    ∀ (pre : List String) (k : String) (post : List String) (v : String),
      (∀ k' ∈ pre, ∀ v', Item.get it k' = some v' → v' = "") →
      Item.get it k = some v → v ≠ "" →
      _pick it (pre ++ k :: post) d = pyStrip v := by
  intro pre
  induction pre with
  | nil =>
    intro k post v _ hget hv
    simp [_pick, hget, hv]
  | cons a pr ih =>
    intro k post v hpre hget hv
    have ha := hpre a (List.mem_cons_self a pr)
    have hpr : ∀ k' ∈ pr, ∀ v', Item.get it k' = some v' → v' = "" :=
      fun k' hk' => hpre k' (List.mem_cons_of_mem a hk')
    rw [List.cons_append]
    unfold _pick
    cases hg : Item.get it a with
    | none => exact ih k post v hpr hget hv
    | some w =>
      have hw : w = "" := ha w hg
      simp only [hw, ne_eq, not_true_eq_false, if_false]
      exact ih k post v hpr hget hv

/-- Claim C7: `_pick` walks the candidate keys in order, returns the
trimmed value of the first key that is present, non-null and non-empty,
and returns the default exactly when no key matches; it is a total
function, so it never throws for missing keys. -/
theorem pick_extractor_spec (it : Item) (keys : List String) (d : String) :
    ((∀ k ∈ keys, ∀ v, Item.get it k = some v → v = "") → _pick it keys d = d) ∧
    (∀ (pre : List String) (k : String) (post : List String) (v : String),
       keys = pre ++ k :: post →
       (∀ k' ∈ pre, ∀ v', Item.get it k' = some v' → v' = "") →
       Item.get it k = some v → v ≠ "" →
       _pick it keys d = pyStrip v) := by
  constructor
  · exact pick_default_of_all_empty it d keys
  · intro pre k post v hk hpre hget hv
    rw [hk]
    exact pick_first_hit it d pre k post v hpre hget hv

/-- Claim C7 witness: on a record where the first candidate key maps to
the empty string and the second to a padded value, `_pick` returns the
second value trimmed; on a record with no matching key it returns the
default. -/
theorem pick_extractor_spec_witness :
    _pick itemC7 ["a", "b", "c"] "dflt" = pyStrip " x " ∧
    _pick itemC7 ["z", "w"] "dflt" = "dflt" :=
  ⟨(pick_extractor_spec itemC7 ["a", "b", "c"] "dflt").2 ["a"] "b" ["c"] " x " rfl
     (by decide) (by decide) (by decide),
   (pick_extractor_spec itemC7 ["z", "w"] "dflt").1 (by decide)⟩

/-- Claim C4 counterexample: on a payload whose `data` field is present
but an empty list while `rows` is non-empty, the spec's "whichever is
non-null first" selection picks the empty `data` (so the fetcher would
have to return an empty list), but the code's truthiness-based selection
falls through to `rows` and the corporate-actions fetcher returns a
non-empty result. -/
theorem payload_selection_counterexample :
    specSelectItems payC4rows = [] ∧ selectItems payC4rows = [itemC4] ∧
    _fetch_corporate_actions_api "X" payC4rows ≠ [] :=
  ⟨rfl, rfl, by decide⟩

/-- Claim C4 (amended): every category API fetcher selects the item
collection as the first truthy (present and non-empty) of the payload's
`data` field, its `rows` field, and the payload itself; a present but
empty collection falls through to the next candidate, and when the
selection is empty every fetcher returns the empty list as a success. -/
theorem payload_selection_truthy :
    (∀ (p : Payload) (l : List Item), p.dataField = some l → l ≠ [] → selectItems p = l) ∧
    (∀ (p : Payload) (l : List Item), (p.dataField = none ∨ p.dataField = some []) →
       p.rowsField = some l → l ≠ [] → selectItems p = l) ∧
    (∀ p : Payload, (p.dataField = none ∨ p.dataField = some []) →
       (p.rowsField = none ∨ p.rowsField = some []) → selectItems p = p.selfItems) ∧
    (∀ (sym : String) (p : Payload), selectItems p = [] →
       _fetch_event_calendar_api sym p = [] ∧ _fetch_board_meetings_api sym p = [] ∧
       _fetch_corporate_actions_api sym p = []) ∧
    (∀ (sym : String) (responses : String → Option Payload),
       (∀ t, annYield responses t = []) → _fetch_announcements_api sym responses = []) := by
  refine ⟨?_, ?_, ?_, ?_, ?_⟩
  · intro p l hd hl
    cases l with
    | nil => exact absurd rfl hl
    | cons a t => simp [selectItems, hd]
  · intro p l hd hr hl
    cases l with
    | nil => exact absurd rfl hl
    | cons a t =>
      rcases hd with hd | hd <;> simp [selectItems, selectItemsRows, hd, hr]
  · intro p hd hr
    rcases hd with hd | hd <;> rcases hr with hr | hr <;>
      simp [selectItems, selectItemsRows, hd, hr]
  · intro sym p h
    exact ⟨by simp [_fetch_event_calendar_api, h],
           by simp [_fetch_board_meetings_api, h],
           by simp [_fetch_corporate_actions_api, h]⟩
  · intro sym responses h
    simp [_fetch_announcements_api, announcementTypeLabels, fetchAnnouncementsLoop, h]

/-- Claim C4 witness: a non-empty `data` list is taken directly; an empty
`data` with non-empty `rows` falls through to `rows`; an all-absent
payload makes all fetchers return empty, including the announcements
probe loop. -/
theorem payload_selection_truthy_witness :
    selectItems payC4data = [itemC4] ∧ selectItems payC4rows = [itemC4] ∧
    (_fetch_event_calendar_api "X" payC4none = [] ∧
     _fetch_board_meetings_api "X" payC4none = [] ∧
     _fetch_corporate_actions_api "X" payC4none = []) ∧
    _fetch_announcements_api "X" annRespC4 = [] :=
  ⟨payload_selection_truthy.1 payC4data [itemC4] rfl (by decide),
   payload_selection_truthy.2.1 payC4rows [itemC4] (Or.inr rfl) rfl (by decide),
   payload_selection_truthy.2.2.2.1 "X" payC4none rfl,
   payload_selection_truthy.2.2.2.2 "X" annRespC4 (fun _ => rfl)⟩

theorem anncAttachment_fst (c : Cell) : (anncAttachment c).1 = hrefOrEmpty c := by
  obtain ⟨t, a, p1, p2, cs, sp⟩ := c
  cases a with
  | none => rfl
  | some an =>
    obtain ⟨atext, ahref⟩ := an
    cases ahref <;> rfl

theorem anncXbrlLink_eq (c : Cell) : anncXbrlLink c = normalizeHref (hrefOrEmpty c) := by
  obtain ⟨t, a, p1, p2, cs, sp⟩ := c
  cases a with
  | none => rfl
  | some an =>
    obtain ⟨atext, ahref⟩ := an
    cases ahref <;> rfl

theorem boardMeetingRowOfTr_eq (tds : List Cell) (h : ¬ tds.length < 7) :
    boardMeetingRowOfTr tds = some
      { symbol := symbolCellText (tds.getD 0 emptyCell)
        company := (tds.getD 1 emptyCell).text
        purpose := (tds.getD 2 emptyCell).text
        details_link := hrefOrEmpty (tds.getD 3 emptyCell)
        meeting_date := (tds.getD 4 emptyCell).text
        attachment_link := hrefOrEmpty (tds.getD 5 emptyCell)
        broadcast_datetime := (tds.getD 6 emptyCell).text } := by
  simp [boardMeetingRowOfTr, h]

theorem announcementRowOfTr_eq (tds : List Cell) (h : ¬ tds.length < 7) :
    announcementRowOfTr tds = some
      { symbol := symbolCellText (tds.getD 0 emptyCell)
        company := (tds.getD 1 emptyCell).text
        subject := (tds.getD 2 emptyCell).text
        details := anncDetailsText (tds.getD 3 emptyCell)
        attachment_link := (anncAttachment (tds.getD 4 emptyCell)).1
        attachment_size := (anncAttachment (tds.getD 4 emptyCell)).2
        xbrl_link := anncXbrlLink (tds.getD 5 emptyCell)
        broadcast_datetime := anncBroadcast (tds.getD 6 emptyCell) } := by
  simp [announcementRowOfTr, h]

/-- Claim C5 counterexample: the board-meetings parser passes a
root-relative attachment href through verbatim - it is not rewritten to
the origin base URL, contradicting "in every table parser ... an href
starting with / is rewritten". -/
theorem link_normalization_counterexample :
    (_parse_board_meetings_table (some { tbody := some [bmTrC5] })).map
        (fun r => r.attachment_link) = ["/x.pdf"] ∧
    ("/x.pdf" : String) ≠ NSE_BASE_URL ++ "/x.pdf" :=
  ⟨rfl, by decide⟩

/-- Claim C5 (amended): in every link-bearing cell the anchor's href is
extracted when an anchor with an href attribute is present, else the
field is the empty string; but root-relative normalization is applied
only to the announcements parser's XBRL link - board-meeting details and
attachment links and announcement attachment links are passed through
verbatim.  For the XBRL link, an href starting with "/" is rewritten to
the origin base URL followed by the href, and any other href passes
through unchanged. -/
theorem link_extraction_spec :
    (∀ (tds : List Cell) (row : BoardMeetingRow), boardMeetingRowOfTr tds = some row →
       row.details_link = hrefOrEmpty (tds.getD 3 emptyCell) ∧
       row.attachment_link = hrefOrEmpty (tds.getD 5 emptyCell)) ∧
    (∀ (tds : List Cell) (row : AnnouncementRow), announcementRowOfTr tds = some row →
       row.attachment_link = hrefOrEmpty (tds.getD 4 emptyCell) ∧
       row.xbrl_link = normalizeHref (hrefOrEmpty (tds.getD 5 emptyCell))) ∧
    (∀ s : String, startsWithSlash s = true → normalizeHref s = NSE_BASE_URL ++ s) ∧
    (∀ s : String, startsWithSlash s = false → normalizeHref s = s) := by
  refine ⟨?_, ?_, ?_, ?_⟩
  · intro tds row h
    by_cases hl : tds.length < 7
    · rw [boardMeetingRowOfTr, if_pos hl] at h
      exact absurd h (by simp)
    · rw [boardMeetingRowOfTr_eq tds hl] at h
      injection h with h2
      rw [← h2]
      exact ⟨rfl, rfl⟩
  · intro tds row h
    by_cases hl : tds.length < 7
    · rw [announcementRowOfTr, if_pos hl] at h
      exact absurd h (by simp)
    · rw [announcementRowOfTr_eq tds hl] at h
      injection h with h2
      rw [← h2]
      exact ⟨anncAttachment_fst (tds.getD 4 emptyCell), anncXbrlLink_eq (tds.getD 5 emptyCell)⟩
  · intro s hs
    simp [normalizeHref, hs]
  · intro s hs
    simp [normalizeHref, hs]

/-- Claim C5 witness: a concrete 7-cell board-meetings row whose
attachment href is extracted verbatim, and concrete normalization
behaviour on a root-relative and a fully-qualified href. -/
theorem link_extraction_spec_witness :
    (bmRowC5.details_link = hrefOrEmpty (bmTrC5.getD 3 emptyCell) ∧
     bmRowC5.attachment_link = hrefOrEmpty (bmTrC5.getD 5 emptyCell)) ∧
    normalizeHref "/a" = NSE_BASE_URL ++ "/a" ∧
    normalizeHref "https://other.example/y" = "https://other.example/y" :=
  ⟨link_extraction_spec.1 bmTrC5 bmRowC5 (by decide),
   link_extraction_spec.2.2.1 "/a" (by decide),
   link_extraction_spec.2.2.2 "https://other.example/y" (by decide)⟩

theorem pick_symbol_first (it : Item) (d v : String)
    (h : Item.get it "symbol" = some v) (hv : v ≠ "") :
    _pick it ["symbol", "SYMBOL"] d = pyStrip v := by
  simp [_pick, h, hv]

theorem pick_symbol_second (it : Item) (d w : String)
    (h1 : ∀ v, Item.get it "symbol" = some v → v = "")
    (h2 : Item.get it "SYMBOL" = some w) (hw : w ≠ "") :
    _pick it ["symbol", "SYMBOL"] d = pyStrip w := by
  cases hg : Item.get it "symbol" with
  | none => simp [_pick, hg, h2, hw]
  | some v =>
    have hv : v = "" := h1 v hg
    simp [_pick, hg, hv, h2, hw]

theorem pick_symbol_default (it : Item) (d : String)
    (h1 : ∀ v, Item.get it "symbol" = some v → v = "")
    (h2 : ∀ w, Item.get it "SYMBOL" = some w → w = "") :
    _pick it ["symbol", "SYMBOL"] d = d := by
  cases hg : Item.get it "symbol" with
  | none =>
    cases hg2 : Item.get it "SYMBOL" with
    | none => simp [_pick, hg, hg2]
    | some w =>
      have hw : w = "" := h2 w hg2
      simp [_pick, hg, hg2, hw]
  | some v =>
    have hv : v = "" := h1 v hg
    cases hg2 : Item.get it "SYMBOL" with
    | none => simp [_pick, hg, hv, hg2]
    | some w =>
      have hw : w = "" := h2 w hg2
      simp [_pick, hg, hv, hg2, hw]

theorem eventRow_symbol (tds : List Cell) (row : EventCalendarRow)
    (h : eventCalendarRowOfTr tds = some row) :
    row.symbol = symbolCellText (tds.getD 0 emptyCell) := by
  unfold eventCalendarRowOfTr at h
  by_cases hl : tds.length < 4
  · rw [if_pos hl] at h; exact absurd h (by simp)
  · rw [if_neg hl] at h
    injection h with h2
    rw [← h2]

theorem boardRow_symbol (tds : List Cell) (row : BoardMeetingRow)
    (h : boardMeetingRowOfTr tds = some row) :
    row.symbol = symbolCellText (tds.getD 0 emptyCell) := by
  unfold boardMeetingRowOfTr at h
  by_cases hl : tds.length < 7
  · rw [if_pos hl] at h; exact absurd h (by simp)
  · rw [if_neg hl] at h
    injection h with h2
    rw [← h2]

theorem corpRow_symbol (tds : List Cell) (row : CorporateActionRow)
    (h : corpActionRowOfTr tds = some row) :
    row.symbol = symbolCellText (tds.getD 0 emptyCell) := by
  unfold corpActionRowOfTr at h
  by_cases hl : tds.length < 9
  · rw [if_pos hl] at h; exact absurd h (by simp)
  · rw [if_neg hl] at h
    injection h with h2
    rw [← h2]

theorem anncRow_symbol (tds : List Cell) (row : AnnouncementRow)
    (h : announcementRowOfTr tds = some row) :
    row.symbol = symbolCellText (tds.getD 0 emptyCell) := by
  unfold announcementRowOfTr at h
  by_cases hl : tds.length < 7
  · rw [if_pos hl] at h; exact absurd h (by simp)
  · rw [if_neg hl] at h
    injection h with h2
    rw [← h2]

/-- Claim C6 counterexample: on the HTML fallback path the input ticker
is not substituted.  With input "tcs" and a fallback table whose only row
has four cells that are all empty (so the source row does not provide its
own non-empty symbol), the orchestrator emits a row whose symbol is the
empty string, not the upper-cased trimmed input "TCS". -/
theorem symbol_invariant_counterexample :
    get_event_calendar_for_symbol "tcs" (.error ()) true
        (.ok (some { tbody := some [emptyTrC6] })) =
      .ok [{ symbol := "", company := "", purpose := "", details := "", date := "" }] ∧
    ("" : String) ≠ pyStrip (pyUpper "tcs") :=
  ⟨rfl, by decide⟩

/-- Claim C6 (amended): a row built by an API fetcher from item `it`
with input symbol `s` carries as its symbol: the item's trimmed `symbol`
value when that is present and non-empty, else the item's trimmed
`SYMBOL` value when that is present and non-empty, else exactly the
input `s`; the row at each output position is built from the selected
item at the same position, and the orchestrators pass the upper-cased
trimmed input ticker as `s`.  Rows built by the HTML parsers instead
take their symbol solely from the row's first cell (anchor text
preferred over cell text) - on that path the input ticker is never
substituted, even when the cell is empty. -/
theorem symbol_provenance :
    (∀ (s : String) (it : Item) (v : String),
       Item.get it "symbol" = some v → v ≠ "" →
       (mkEventCalendarRow s it).symbol = pyStrip v ∧
       (mkBoardMeetingRow s it).symbol = pyStrip v ∧
       (mkCorporateActionRow s it).symbol = pyStrip v ∧
       (mkAnnouncementRow s it).symbol = pyStrip v) ∧
    (∀ (s : String) (it : Item) (w : String),
       (∀ v, Item.get it "symbol" = some v → v = "") →
       Item.get it "SYMBOL" = some w → w ≠ "" →
       (mkEventCalendarRow s it).symbol = pyStrip w ∧
       (mkBoardMeetingRow s it).symbol = pyStrip w ∧
       (mkCorporateActionRow s it).symbol = pyStrip w ∧
       (mkAnnouncementRow s it).symbol = pyStrip w) ∧
    (∀ (s : String) (it : Item),
       (∀ v, Item.get it "symbol" = some v → v = "") →
       (∀ w, Item.get it "SYMBOL" = some w → w = "") →
       (mkEventCalendarRow s it).symbol = s ∧
       (mkBoardMeetingRow s it).symbol = s ∧
       (mkCorporateActionRow s it).symbol = s ∧
       (mkAnnouncementRow s it).symbol = s) ∧
    (∀ (s : String) (p : Payload) (i : Nat),
       (_fetch_event_calendar_api s p)[i]? =
         Option.map (mkEventCalendarRow s) (selectItems p)[i]? ∧
       (_fetch_board_meetings_api s p)[i]? =
         Option.map (mkBoardMeetingRow s) (selectItems p)[i]? ∧
       (_fetch_corporate_actions_api s p)[i]? =
         Option.map (mkCorporateActionRow s) (selectItems p)[i]?) ∧
    (∀ (s : String) (responses : String → Option Payload),
       ∃ t ∈ announcementTypeLabels, ∀ i : Nat,
         (_fetch_announcements_api s responses)[i]? =
           Option.map (mkAnnouncementRow s) (annYield responses t)[i]?) ∧
    (∀ (sym : String) (p : Payload) (fb : Except Unit (Option HtmlTable)),
       _fetch_event_calendar_api (pyStrip (pyUpper sym)) p ≠ [] →
       get_event_calendar_for_symbol sym (.ok p) true fb =
         .ok (_fetch_event_calendar_api (pyStrip (pyUpper sym)) p)) ∧
    (∀ (sym : String) (responses : String → Option Payload) (run : PageRun) (scr : AnnHtml),
       _fetch_announcements_api (pyStrip (pyUpper sym)) responses ≠ [] →
       get_announcements_for_symbol sym (some responses) true run scr =
         .ok (_fetch_announcements_api (pyStrip (pyUpper sym)) responses)) ∧
    (∀ (tds : List Cell) (row : EventCalendarRow), eventCalendarRowOfTr tds = some row →
       row.symbol = symbolCellText (tds.getD 0 emptyCell)) ∧
    (∀ (tds : List Cell) (row : BoardMeetingRow), boardMeetingRowOfTr tds = some row →
       row.symbol = symbolCellText (tds.getD 0 emptyCell)) ∧
    (∀ (tds : List Cell) (row : CorporateActionRow), corpActionRowOfTr tds = some row →
       row.symbol = symbolCellText (tds.getD 0 emptyCell)) ∧
    (∀ (tds : List Cell) (row : AnnouncementRow), announcementRowOfTr tds = some row →
       row.symbol = symbolCellText (tds.getD 0 emptyCell)) := by
  refine ⟨?_, ?_, ?_, ?_, ?_, eventOrch_api_nonempty, annOrch_api_nonempty,
          eventRow_symbol, boardRow_symbol, corpRow_symbol, anncRow_symbol⟩
  · intro s it v h hv
    exact ⟨pick_symbol_first it s v h hv, pick_symbol_first it s v h hv,
           pick_symbol_first it s v h hv, pick_symbol_first it s v h hv⟩
  · intro s it w h1 h2 hw
    exact ⟨pick_symbol_second it s w h1 h2 hw, pick_symbol_second it s w h1 h2 hw,
           pick_symbol_second it s w h1 h2 hw, pick_symbol_second it s w h1 h2 hw⟩
  · intro s it h1 h2
    exact ⟨pick_symbol_default it s h1 h2, pick_symbol_default it s h1 h2,
           pick_symbol_default it s h1 h2, pick_symbol_default it s h1 h2⟩
  · intro s p i
    exact ⟨List.getElem?_map (mkEventCalendarRow s) (selectItems p) i,
           List.getElem?_map (mkBoardMeetingRow s) (selectItems p) i,
           List.getElem?_map (mkCorporateActionRow s) (selectItems p) i⟩
  · intro s responses
    by_cases h1 : annYield responses "Announcement" = []
    · by_cases h2 : annYield responses "Corporate Announcement" = []
      · by_cases h3 : annYield responses "Announcements" = []
        · refine ⟨"Announcement", by decide, ?_⟩
          intro i
          have hf : _fetch_announcements_api s responses = [] := by
            unfold _fetch_announcements_api announcementTypeLabels
            rw [fetchLoop_cons_empty s responses _ _ h1,
                fetchLoop_cons_empty s responses _ _ h2,
                fetchLoop_cons_empty s responses _ _ h3]
            rfl
          rw [hf, h1]
          simp
        · refine ⟨"Announcements", by decide, ?_⟩
          intro i
          have hf : _fetch_announcements_api s responses =
              (annYield responses "Announcements").map (mkAnnouncementRow s) := by
            unfold _fetch_announcements_api announcementTypeLabels
            rw [fetchLoop_cons_empty s responses _ _ h1,
                fetchLoop_cons_empty s responses _ _ h2]
            exact fetchLoop_cons_hit s responses _ _ h3
          rw [hf]
          exact List.getElem?_map (mkAnnouncementRow s) (annYield responses "Announcements") i
      · refine ⟨"Corporate Announcement", by decide, ?_⟩
        intro i
        have hf : _fetch_announcements_api s responses =
            (annYield responses "Corporate Announcement").map (mkAnnouncementRow s) := by
          unfold _fetch_announcements_api announcementTypeLabels
          rw [fetchLoop_cons_empty s responses _ _ h1]
          exact fetchLoop_cons_hit s responses _ _ h2
        rw [hf]
        exact List.getElem?_map (mkAnnouncementRow s)
          (annYield responses "Corporate Announcement") i
    · refine ⟨"Announcement", by decide, ?_⟩
      intro i
      have hf : _fetch_announcements_api s responses =
          (annYield responses "Announcement").map (mkAnnouncementRow s) := by
        unfold _fetch_announcements_api announcementTypeLabels
        exact fetchLoop_cons_hit s responses _ _ h1
      rw [hf]
      exact List.getElem?_map (mkAnnouncementRow s) (annYield responses "Announcement") i

/-- Claim C6 witness: an item whose `symbol` field is the padded value
" tcs2 " overrides the input "TCS" with its trimmed value; an item with
no fields falls back to the input exactly; and the row at position 0 of
the fetcher output is built from the selected item at position 0. -/
theorem symbol_provenance_witness :
    (mkEventCalendarRow "TCS" itemC6).symbol = pyStrip " tcs2 " ∧
    (mkEventCalendarRow "TCS" { fields := [] }).symbol = "TCS" ∧
    (_fetch_event_calendar_api "TCS" payC6)[0]? =
      Option.map (mkEventCalendarRow "TCS") (selectItems payC6)[0]? :=
  ⟨(symbol_provenance.1 "TCS" itemC6 " tcs2 " (by decide) (by decide)).1,
   (symbol_provenance.2.2.1 "TCS" { fields := [] }
      (fun v hv => Option.noConfusion hv) (fun w hw => Option.noConfusion hw)).1,
   (symbol_provenance.2.2.2.1 "TCS" payC6 0).1⟩

/-- Claim C8 counterexample: `wait_for_table_rows` itself performs no
last-chance parse - on hard timeout it saves the debug artifacts and
raises unconditionally, even when the final page source parses to rows
(the parse-and-only-then-raise behaviour lives in the caller). -/
theorem waiter_timeout_counterexample :
    wait_for_table_rows (.neverReady annHtmlC8) =
      .error { screenshotSaved := true, htmlSaved := true } ∧
    _parse_announcements_table annHtmlC8 ≠ [] :=
  ⟨rfl, by decide⟩

/-- Claim C8 (amended): on hard timeout the waiter captures both the HTML
snapshot and the visual snapshot and always raises `TimeoutException`
without parsing; it is the announcements orchestrator's timeout handler
that attempts the last-chance parse of the current page source, returns
its rows when it yields any, and re-raises the timeout only when that
parse also yields nothing. -/
theorem timeout_last_chance_parse (sym : String)
    (session : Option (String → Option Payload)) (fh scr : AnnHtml)
    (hapi : annApiAttempt session (pyStrip (pyUpper sym)) = none ∨
            annApiAttempt session (pyStrip (pyUpper sym)) = some []) :
    wait_for_table_rows (.neverReady fh) =
      .error { screenshotSaved := true, htmlSaved := true } ∧
    (_parse_announcements_table fh ≠ [] →
       get_announcements_for_symbol sym session true (.neverReady fh) scr =
         .ok (_parse_announcements_table fh)) ∧
    (_parse_announcements_table fh = [] →
       get_announcements_for_symbol sym session true (.neverReady fh) scr =
         .error .timeout) := by
  refine ⟨rfl, ?_, ?_⟩
  · intro hne
    rw [annOrch_fallback_of_apiEmpty sym session _ scr hapi]
    exact annFallback_timeout_rows fh scr hne
  · intro he
    rw [annOrch_fallback_of_apiEmpty sym session _ scr hapi]
    exact annFallback_timeout_empty fh scr he

/-- Claim C8 witness: with a failed API session and a timed-out wait over
a page whose final source still parses to one row, the orchestrator
returns that parse; with an unparsable final source it surfaces the
timeout. -/
theorem timeout_last_chance_parse_witness :
    wait_for_table_rows (.neverReady annHtmlC8) =
      .error { screenshotSaved := true, htmlSaved := true } ∧
    get_announcements_for_symbol "A" none true (.neverReady annHtmlC8) annHtmlNone =
      .ok (_parse_announcements_table annHtmlC8) ∧
    get_announcements_for_symbol "A" none true (.neverReady annHtmlNone) annHtmlNone =
      .error .timeout :=
  ⟨(timeout_last_chance_parse "A" none annHtmlC8 annHtmlNone (Or.inl rfl)).1,
   (timeout_last_chance_parse "A" none annHtmlC8 annHtmlNone (Or.inl rfl)).2.1 (by decide),
   (timeout_last_chance_parse "A" none annHtmlNone annHtmlNone (Or.inl rfl)).2.2 rfl⟩

/-- Claim C10 counterexample: an attachment cell whose anchor carries an
empty `href` attribute together with a `p.mt-1` size paragraph produces a
row with a non-empty `attachment_size` and an empty `attachment_link`,
refuting "attachment_size non-empty implies attachment_link non-empty". -/
theorem attachment_size_counterexample :
    (_parse_announcements_table annHtmlC10).map
        (fun r => (r.attachment_size, r.attachment_link)) = [("2.3 MB", "")] ∧
    ("2.3 MB" : String) ≠ "" :=
  ⟨rfl, by decide⟩

/-- Claim C10 (amended): `attachment_size` is non-empty only when the
attachment cell contains an anchor bearing an `href` attribute, and
`attachment_link` is then exactly that attribute's value - which may
itself be the empty string; when the cell has no anchor, or an anchor
without an `href` attribute, both the link and the size are empty. -/
theorem attachment_size_requires_href (tds : List Cell) (row : AnnouncementRow)
    (h : announcementRowOfTr tds = some row) :
    (row.attachment_size ≠ "" →
       ∃ a href, (tds.getD 4 emptyCell).anchor = some a ∧ a.href = some href ∧
         row.attachment_link = href) ∧
    ((tds.getD 4 emptyCell).anchor = none →
       row.attachment_link = "" ∧ row.attachment_size = "") ∧
    (∀ a, (tds.getD 4 emptyCell).anchor = some a → a.href = none →
       row.attachment_link = "" ∧ row.attachment_size = "") := by
  by_cases hl : tds.length < 7
  · rw [announcementRowOfTr, if_pos hl] at h
    exact absurd h (by simp)
  · rw [announcementRowOfTr_eq tds hl] at h
    injection h with h2
    rw [← h2]
    generalize tds.getD 4 emptyCell = c4
    obtain ⟨t4, a4, d1, d2, cs4, sp4⟩ := c4
    cases a4 with
    | none =>
      exact ⟨fun hs => absurd rfl hs, fun _ => ⟨rfl, rfl⟩, fun a hA => Option.noConfusion hA⟩
    | some an =>
      obtain ⟨at1, ah⟩ := an
      cases ah with
      | none =>
        exact ⟨fun hs => absurd rfl hs, fun hA => Option.noConfusion hA,
               fun a hA hH => ⟨rfl, rfl⟩⟩
      | some href =>
        refine ⟨fun hs => ⟨⟨at1, some href⟩, href, rfl, rfl, rfl⟩,
                fun hA => Option.noConfusion hA, fun a hA hH => ?_⟩
        injection hA with hA2
        rw [← hA2] at hH
        exact Option.noConfusion hH

/-- Claim C10 witness: the concrete empty-href row instantiates the
"size non-empty implies an anchor with an href attribute" direction, the
extracted link being that (empty) attribute value. -/
theorem attachment_size_requires_href_witness :
    ∃ a href, (annTrC10.getD 4 emptyCell).anchor = some a ∧ a.href = some href ∧
      annRowC10.attachment_link = href :=
  (attachment_size_requires_href annTrC10 annRowC10 rfl).1 (by decide)
